import Mathlib

/-!
Shallow embedding of the configuration-resolution and filename-parsing logic of
`src/documents/models.py` (classes `ConfigurationOptionManager`, `ConfigurationOption`,
`FileInfo`) and `src/paperless_tesseract/setting_schema.py` (`get_ocr_settings`), together
with proofs about the claims of the specification.

Python values that flow through the configuration resolver are strings, ints, bools or
`None`; they are modelled by `PyVal`.  Machine-level details that the code never exercises
(arbitrary-precision ints are exact in Python, so `Int` is a faithful model) are modelled
exactly.
-/

/-- A Python runtime value of one of the types that occur in the configuration registry
(`str`, `int`, `bool`) or `None`. -/
inductive PyVal where
  | none
  | str (s : String)
  | int (n : Int)
  | bool (b : Bool)
deriving DecidableEq, Repr

/-- The declared type of a configuration key: the `"type"` entry of
`ConfigurationOptionManager.CONFIGURATION_KEYS` (only `str`, `int` and `bool` occur among
the active, non-commented-out entries). -/
inductive CType where
  | str
  | int
  | bool
deriving DecidableEq, Repr

/-- Python `type(value) == t` for a declared type `t`: exact runtime-type equality
(`type(True) == int` is `False` in Python, and the constructors are disjoint here;
`None` has type `NoneType`, equal to none of the declared types). -/
def pyTypeIs (v : PyVal) (t : CType) : Bool :=
  match v, t with
  | .str _, .str => true
  | .int _, .int => true
  | .bool _, .bool => true
  | _, _ => false

/-! ### Python `str(int)` and `int(str)`

`set_config` stores values into a Django `CharField`, which converts them with `str(...)`;
reading back coerces with the declared type's constructor, e.g. `int(...)`.  The decimal
printing of an integer and the parsing of `int()` on decimal string literals (optional
surrounding whitespace, optional sign, decimal digits with optional single underscores
between digits) are modelled below.  (Non-ASCII unicode digits accepted by CPython's
`int()` are outside the model; no stored value in this development uses them.) -/

/-- The decimal digits of `n`, most significant first, computed with explicit fuel so that
the definition is structural (the fuel `n+1` always suffices since `n / 10 < n` for
`n ≥ 10`). -/
def natToDigitsAux (fuel n : Nat) : List Char :=
  match fuel with
  | 0 => []
  | fuel + 1 =>
    if n < 10 then [Nat.digitChar n]
    else natToDigitsAux fuel (n / 10) ++ [Nat.digitChar (n % 10)]

/-- Decimal digit string of a natural number, e.g. `natToDigits 105 = ['1','0','5']`. -/
def natToDigits (n : Nat) : List Char := natToDigitsAux (n + 1) n

/-- Python `str(n)` for an `int` value `n`: optional minus sign followed by the decimal
digits of the absolute value. -/
def pyIntStr (n : Int) : String :=
  String.mk (if n < 0 then '-' :: natToDigits n.natAbs else natToDigits n.natAbs)

/-- Python `str(value)` as performed by Django's `CharField` when persisting a value
(strings are stored as-is; `str(True) = "True"`, `str(False) = "False"`). -/
def pyStr (v : PyVal) : String :=
  match v with
  | .none => "None"
  | .str s => s
  | .int n => pyIntStr n
  | .bool b => if b then "True" else "False"

/-- Numeric value of a list of decimal digit characters (most significant first). -/
def digitsToNat (cs : List Char) : Nat :=
  cs.foldl (fun a c => a * 10 + (c.toNat - 48)) 0

/-- Remove the underscores of a Python decimal literal, checking Python's placement rules
on the tail: an underscore must be followed by a digit and every other character must be a
digit.  (The caller checks that the first character is a digit, ruling out a leading
underscore.) -/
def remUnderscores : List Char → Option (List Char)
  | [] => some []
  | c :: cs =>
    if c = '_' then
      match cs with
      | [] => Option.none
      | c2 :: _ => if c2.isDigit then remUnderscores cs else Option.none
    else if c.isDigit then (remUnderscores cs).map (c :: ·) else Option.none

/-- Parse a non-empty run of decimal digits with optional internal underscores. -/
def parseUDigits (cs : List Char) : Option Nat :=
  match cs with
  | [] => Option.none
  | c :: _ => if c.isDigit then (remUnderscores cs).map digitsToNat else Option.none

/-- Whitespace characters stripped by Python's `int()` (the `str.strip` default set
restricted to ASCII, which covers every value this development stores). -/
def isPyWs (c : Char) : Bool :=
  c = ' ' || c = '\t' || c = '\n' || c = '\r' || c = '\x0b' || c = '\x0c'

/-- Drop leading whitespace characters. -/
def dropLeadWs : List Char → List Char
  | [] => []
  | c :: cs => if isPyWs c then dropLeadWs cs else c :: cs

/-- Strip whitespace from both ends. -/
def dropWs (cs : List Char) : List Char :=
  (dropLeadWs (dropLeadWs cs).reverse).reverse

/-- `int()` applied to an already-stripped character list: optional sign, then digits. -/
def pyIntOfChars (cs : List Char) : Option Int :=
  match cs with
  | [] => Option.none
  | c :: rest =>
    if c = '-' then (parseUDigits rest).map (fun n => -(Int.ofNat n))
    else if c = '+' then (parseUDigits rest).map Int.ofNat
    else (parseUDigits cs).map Int.ofNat

/-- Python `int(s)` on a decimal string: `none` models a raised `ValueError`. -/
def pyIntOfString (s : String) : Option Int :=
  pyIntOfChars (dropWs s.toList)

/-! ### The configuration registry and store -/

/-- One registry entry: the `{"type": ..., "default": ...}` dict of
`CONFIGURATION_KEYS`.  `default = some v` models the presence of the `"default"` dict key
with value `v` (which may itself be Python `None`, modelled `PyVal.none`); `default = none`
would model a dict without a `"default"` key (none of the active entries omit it, but
`_get_default` tests for its presence, so the embedding keeps the distinction). -/
structure CfgEntry where
  type : CType
  default : Option PyVal
deriving DecidableEq, Repr

/-- `ConfigurationOptionManager.CONFIGURATION_KEYS`: the active (non-commented-out)
entries, in source order. -/
def CONFIGURATION_KEYS : List (String × CfgEntry) := [
  ("OCR_LANGUAGE", ⟨.str, some (.str "eng")⟩),
  ("OCR_MODE", ⟨.str, some (.str "skip")⟩),
  ("OCR_SKIP_ARCHIVE_FILE", ⟨.str, some (.str "never")⟩),
  ("OCR_CLEAN", ⟨.str, some (.str "clean")⟩),
  ("OCR_DESKEW", ⟨.bool, some (.bool true)⟩),
  ("OCR_ROTATE_PAGES", ⟨.bool, some (.bool true)⟩),
  ("OCR_ROTATE_PAGES_THRESHOLD", ⟨.bool, some (.bool true)⟩),
  ("OCR_OUTPUT_TYPE", ⟨.str, some (.str "pdfa")⟩),
  ("OCR_PAGES", ⟨.int, some (.int 0)⟩),
  ("OCR_IMAGE_DPI", ⟨.int, some .none⟩),
  ("OCR_MAX_IMAGE_PIXELS", ⟨.int, some .none⟩),
  ("OCR_USER_ARGS", ⟨.str, some .none⟩),
  ("NUMBER_OF_SUGGESTED_DATES", ⟨.int, some (.int 3)⟩),
  ("IGNORE_DATES", ⟨.str, some (.str "")⟩),
  ("DATE_ORDER", ⟨.str, some (.str "DMY")⟩)]

/-- Registry lookup: `CONFIGURATION_KEYS[key]` / `key in CONFIGURATION_KEYS`. -/
def cfgLookup (k : String) : Option CfgEntry :=
  (CONFIGURATION_KEYS.find? (fun r => r.1 = k)).map (·.2)

/-- The `ConfigurationOption` table: rows `(key, value)` where `value` is the nullable
`CharField` column (`some s` a stored string, `none` SQL NULL).  The `unique=True`
constraint on `key` means well-formed stores hold at most one row per key; the
definitions below use first-match semantics and never depend on uniqueness. -/
abbrev Store := List (String × Option String)

/-- `self.filter(key=item).first()`, projected to the `value` column; `none` when no row
matches (`query.exists()` false). -/
def storeFirst (st : Store) (k : String) : Option (Option String) :=
  (st.find? (fun r => r.1 = k)).map (·.2)

/-- `self.filter(key=key).update(value=value)`: overwrite the `value` column of every row
whose key matches (no row is ever created). -/
def storeUpdate (st : Store) (k : String) (v : String) : Store :=
  st.map (fun r => if r.1 = k then (r.1, some v) else r)

/-- The Python exceptions raised by the two operations. -/
inductive PyErr where
  | attributeError
  | keyError
  | typeError
  | valueError
deriving DecidableEq, Repr

/-- `self.CONFIGURATION_KEYS[item]["type"](raw)`: apply the declared type's constructor to
the raw stored string.  `int(...)` raises `ValueError` on a malformed literal;
`bool(s)` on a string is truthiness (`s != ""`); `str(s)` is the identity. -/
def coerceVal (t : CType) (raw : String) : Except PyErr PyVal :=
  match t with
  | .str => .ok (.str raw)
  | .bool => .ok (.bool (raw ≠ ""))
  | .int =>
    match pyIntOfString raw with
    | some n => .ok (.int n)
    | Option.none => .error .valueError

/-- The process environment, as a list of `(name, value)` pairs. -/
abbrev Env := List (String × String)

/-- `os.environ` lookup. -/
def envFind (env : Env) (name : String) : Option String :=
  (env.find? (fun r => r.1 = name)).map (·.2)

/-- `ConfigurationOptionManager._get_default(key)`: the `PAPERLESS_`-prefixed environment
variable if set (returned as a raw string even for non-string declared types), else the
registry default if the `"default"` dict key is present, else `None`. -/
def get_default (env : Env) (key : String) (entry : CfgEntry) : PyVal :=
  match envFind env ("PAPERLESS_" ++ key) with
  | some v => .str v
  | Option.none =>
    match entry.default with
    | some d => d
    | Option.none => .none

/-- `ConfigurationOptionManager.__getattr__(item)`: raises `AttributeError` for a key not
in the registry; otherwise, if a row for the key exists and its value is truthy
(non-NULL and non-empty), coerces the stored string with the declared type's constructor;
otherwise falls back to `_get_default`. -/
def getattrConfig (st : Store) (env : Env) (item : String) : Except PyErr PyVal :=
  match cfgLookup item with
  | Option.none => .error .attributeError
  | some entry =>
    match storeFirst st item with
    | some (some s) => if s ≠ "" then coerceVal entry.type s else .ok (get_default env item entry)
    | _ => .ok (get_default env item entry)

/-- `ConfigurationOptionManager.set_config(key, value)`: `KeyError` for an unregistered
key, `TypeError` when `type(value)` is not exactly the declared type, else update the
value column of the rows with that key (the stored column receives `str(value)` through
the `CharField`). -/
def set_config (st : Store) (key : String) (value : PyVal) : Except PyErr Store :=
  match cfgLookup key with
  | some entry =>
    if pyTypeIs value entry.type then .ok (storeUpdate st key (pyStr value))
    else .error .typeError
  | Option.none => .error .keyError

/-- The database state after a `set_config` attempt: a raised exception happens before the
write, leaving the store unchanged. -/
def applySet (st : Store) (key : String) (value : PyVal) : Store :=
  match set_config st key value with
  | .ok st' => st'
  | .error _ => st

/-! ### Filename metadata extraction: `FileInfo` -/

/-- An aware `datetime` in UTC, as produced by `dateutil.parser.parse` on the
`"YYYYMMDDHHMMSSZ"` strings built by `FileInfo._get_created` (the `Z` token resolves to
`tzutc()`, so the timezone is always UTC and is left implicit). -/
structure PyDatetime where
  year : Nat
  month : Nat
  day : Nat
  hour : Nat
  minute : Nat
  second : Nat
deriving DecidableEq, Repr

/-- Gregorian leap year, as used by Python's `datetime` validation. -/
def isLeapYear (y : Nat) : Bool :=
  y % 4 = 0 && (y % 100 ≠ 0 || y % 400 = 0)

/-- Days in a month (`calendar.monthrange` semantics), for `1 ≤ m ≤ 12`. -/
def daysInMonth (y m : Nat) : Nat :=
  if m = 2 then (if isLeapYear y then 29 else 28)
  else if m = 4 || m = 6 || m = 9 || m = 11 then 30
  else 31

/-- The validation performed by the `datetime` constructor (`MINYEAR = 1`,
`MAXYEAR = 9999`); a failure raises `ValueError`. -/
def datetimeValid (y mo d h mi s : Nat) : Bool :=
  1 ≤ y && y ≤ 9999 && 1 ≤ mo && mo ≤ 12 && 1 ≤ d && d ≤ daysInMonth y mo &&
    h ≤ 23 && mi ≤ 59 && s ≤ 59

/-- Index of the first occurrence of `t`, or the length of the list when absent
(the recursion underlying `str.find` / `str.rfind`). -/
def idxOfFrom : List Char → Char → Nat
  | [], _ => 0
  | c :: cs, t => if c = t then 0 else idxOfFrom cs t + 1

/-- Python `s.rfind(c)`: index of the last occurrence, `-1` when absent. -/
def rfindChar (cs : List Char) (c : Char) : Int :=
  let j := idxOfFrom cs.reverse c
  if j = cs.reverse.length then -1 else (cs.length : Int) - 1 - (j : Int)

/-- `os.path.splitext` (POSIX flavour: separator `/`, no alternative separator, extension
separator `.`): split at the last dot that follows the last slash, unless every character
between the slash and that dot is itself a dot (a leading-dots-only name such as `".pdf"`
has no extension). -/
def splitext (p : String) : String × String :=
  let cs := p.toList
  let sepIndex := rfindChar cs '/'
  let dotIndex := rfindChar cs '.'
  if sepIndex < dotIndex then
    let between := (cs.drop (sepIndex + 1).toNat).take (dotIndex - sepIndex - 1).toNat
    if between.all (fun c => c = '.') then (p, "")
    else (String.mk (cs.take dotIndex.toNat), String.mk (cs.drop dotIndex.toNat))
  else (p, "")

/-- `dateutil.parser.parse` restricted to the only shape `_get_created` feeds it: a
single 14-digit `YYYYMMDDHHMMSS` token followed by `Z`.  The parser splits the digits as
year/month/day/hour/minute/second and validates them through the `datetime` constructor;
`none` models a raised `ValueError`.  (The 4-digit year token marks the century as
specified, so no two-digit-year adjustment applies.) -/
def dateutilParse14Z (s : String) : Option PyDatetime :=
  let cs := s.toList
  if cs.length = 15 && (cs.take 14).all Char.isDigit && cs.getLast? = some 'Z' then
    let y := digitsToNat (cs.take 4)
    let mo := digitsToNat ((cs.drop 4).take 2)
    let d := digitsToNat ((cs.drop 6).take 2)
    let h := digitsToNat ((cs.drop 8).take 2)
    let mi := digitsToNat ((cs.drop 10).take 2)
    let sec := digitsToNat ((cs.drop 12).take 2)
    if datetimeValid y mo d h mi sec then some ⟨y, mo, d, h, mi, sec⟩ else Option.none
  else Option.none

/-- Python format `f"{body:0<14}"`: left-justify in width 14, filling on the right
with `'0'`. -/
def padRightTo14 (s : String) : String :=
  if s.length < 14 then s ++ String.mk (List.replicate (14 - s.length) '0') else s

/-- The result object built by `FileInfo.__init__`; `from_filename` only ever passes
`created` and `title`, so the remaining constructor parameters keep their defaults. -/
structure FileInfo where
  created : Option PyDatetime := Option.none
  title : Option String := Option.none
  correspondent : Option String := Option.none
  tags : List String := []
  extension : Option String := Option.none
deriving DecidableEq, Repr

/-- `FileInfo._get_created(created)`: drop the trailing character (`created[:-1]`, the
mandatory `Z`/`z` of the capture), right-pad the digits to 14 with `'0'`, append `"Z"` and
parse; a `ValueError` from parsing becomes `None`. -/
def FileInfo.get_created (created : String) : Option PyDatetime :=
  dateutilParse14Z (padRightTo14 (String.mk created.toList.dropLast) ++ "Z")

/-- The title group `(?P<title>.*)$` matched at position 0 of `t` (no `MULTILINE`, no
`DOTALL`): `.*` cannot cross a newline and `$` matches only at the end of the string or
just before a final trailing newline, so the match succeeds exactly when `t` contains no
newline other than a final one, and the group excludes that final newline. -/
def matchDotStarDollar (t : List Char) : Option (List Char) :=
  let i := idxOfFrom t '\n'
  if i = t.length then some t
  else if i = t.length - 1 then some (t.take i)
  else Option.none

/-- Tail of the `created-title` pattern after `k` consumed digit characters: the mandatory
`Z` (case-insensitive, from `re.IGNORECASE`), the literal `" - "`, then the title group.
Returns (created capture, title capture). -/
def matchZTail (cs : List Char) (k : Nat) : Option (String × String) :=
  match cs.drop k with
  | z :: rest =>
    if z = 'Z' || z = 'z' then
      match rest with
      | ' ' :: '-' :: ' ' :: t =>
        (matchDotStarDollar t).map (fun p => (String.mk (cs.take (k + 1)), String.mk p))
      | _ => Option.none
    else Option.none
  | [] => Option.none

/-- The first `FileInfo.REGEXES` pattern,
`^(?P<created>\d{8}(\d{6})?Z) - (?P<title>.*)$` with `re.IGNORECASE`, matched with
`re.match` semantics: eight digits, then greedily six more digits if present (if the six
digits are there but no `Z` follows, backtracking to the empty option places `Z` on a
digit and fails), then `Z - ` and the title group.  (`\d` is modelled as ASCII digits.) -/
def matchCreatedTitle (s : String) : Option (String × String) :=
  let cs := s.toList
  if (cs.take 8).length = 8 && (cs.take 8).all Char.isDigit then
    if ((cs.drop 8).take 6).length = 6 && ((cs.drop 8).take 6).all Char.isDigit then
      matchZTail cs 14
    else
      matchZTail cs 8
  else Option.none

/-- The second `FileInfo.REGEXES` pattern, `(?P<title>.*)$`. -/
def matchTitleOnly (s : String) : Option String :=
  (matchDotStarDollar s.toList).map String.mk

/-- The `settings.FILENAME_PARSE_TRANSFORMS` loop: each configured rule is abstracted as a
function returning `some rewritten` when its pattern substituted at least once
(`count > 0`) and `none` otherwise (`pattern.subn` leaves the string unchanged when
nothing matched); the first rule that matches is applied and the loop stops. -/
def applyTransforms : List (String → Option String) → String → String
  | [], f => f
  | t :: ts, f =>
    match t f with
    | some f2 => f2
    | Option.none => applyTransforms ts f

/-- `filename.startswith(".")`. -/
def startsWithDot (f : String) : Bool :=
  match f.toList with
  | '.' :: _ => true
  | _ => false

/-- The extension-stripping step of `from_filename`: take the root of `splitext`, except
that a filename left unchanged by `splitext` which starts with a dot (a bare `".pdf"`) is
replaced by the empty string. -/
def processedName (f : String) : String :=
  let root := (splitext f).1
  if root = f && startsWithDot f then "" else root

/-- `FileInfo.from_filename(filename)`: apply at most one transform, strip the extension
(with the leading-dot special case), then try the two patterns in order; on the first
match, mangle the captured groups (`_get_created` on `created`, identity on `title`) and
build the `FileInfo`.  When neither pattern matches, the `for` loop falls through and the
method implicitly returns `None`. -/
def FileInfo.from_filename (transforms : List (String → Option String))
    (filename : String) : Option FileInfo :=
  let f1 := applyTransforms transforms filename
  let f2 := processedName f1
  match matchCreatedTitle f2 with
  | some (c, t) => some { created := FileInfo.get_created c, title := some t }
  | Option.none =>
    match matchTitleOnly f2 with
    | some t => some { created := Option.none, title := some t }
    | Option.none => Option.none

/-! ### Roundtrip lemmas: `int(str(n)) = n` -/

theorem digitChar_isDigit {m : Nat} (h : m < 10) : (Nat.digitChar m).isDigit = true := by
  interval_cases m <;> decide

theorem digitChar_toNat {m : Nat} (h : m < 10) : (Nat.digitChar m).toNat - 48 = m := by
  interval_cases m <;> decide

theorem natToDigitsAux_ne_nil {fuel n : Nat} (h : n < fuel) :
    natToDigitsAux fuel n ≠ [] := by
  cases fuel with
  | zero => omega
  | succ f =>
    unfold natToDigitsAux
    split
    · simp
    · simp

theorem natToDigitsAux_all_digit {fuel n : Nat} (h : n < fuel) :
    (natToDigitsAux fuel n).all Char.isDigit = true := by
  induction fuel generalizing n with
  | zero => omega
  | succ f ih =>
    unfold natToDigitsAux
    split
    · next hlt => simp [digitChar_isDigit hlt]
    · next hge =>
      have h1 : n / 10 < f := by omega
      have h2 := digitChar_isDigit (show n % 10 < 10 by omega)
      simp [ih h1, h2]

theorem foldl_natToDigitsAux {fuel : Nat} : ∀ {n a : Nat}, n < fuel →
    (natToDigitsAux fuel n).foldl (fun a c => a * 10 + (c.toNat - 48)) a =
      a * 10 ^ (natToDigitsAux fuel n).length + n := by
  induction fuel with
  | zero => omega
  | succ f ih =>
    intro n a h
    unfold natToDigitsAux
    split
    · next hlt =>
      simp [List.foldl, digitChar_toNat hlt]
    · next hge =>
      have h1 : n / 10 < f := by omega
      rw [List.foldl_append]
      have hmod : n % 10 < 10 := Nat.mod_lt n (by omega)
      simp only [List.foldl, digitChar_toNat hmod, List.length_append, List.length_cons,
        List.length_nil]
      rw [ih h1]
      have := Nat.div_add_mod n 10
      ring_nf
      omega

theorem digitsToNat_natToDigits (n : Nat) : digitsToNat (natToDigits n) = n := by
  unfold digitsToNat natToDigits
  rw [foldl_natToDigitsAux (Nat.lt_succ_self n)]
  simp

theorem remUnderscores_all_digit : ∀ {l : List Char}, l.all Char.isDigit = true →
    remUnderscores l = some l := by
  intro l
  induction l with
  | nil => intro _; rfl
  | cons c cs ih =>
    intro h
    simp only [List.all_cons, Bool.and_eq_true] at h
    unfold remUnderscores
    have hne : ¬ c = '_' := by
      intro he
      rw [he] at h
      exact absurd h.1 (by decide)
    rw [if_neg hne, if_pos h.1, ih h.2]
    rfl

theorem natToDigits_ne_nil (n : Nat) : natToDigits n ≠ [] :=
  natToDigitsAux_ne_nil (Nat.lt_succ_self n)

theorem natToDigits_all_digit (n : Nat) : (natToDigits n).all Char.isDigit = true :=
  natToDigitsAux_all_digit (Nat.lt_succ_self n)

theorem parseUDigits_natToDigits (n : Nat) : parseUDigits (natToDigits n) = some n := by
  have hne := natToDigits_ne_nil n
  have hall := natToDigits_all_digit n
  cases hl : natToDigits n with
  | nil => exact absurd hl hne
  | cons c cs =>
    rw [hl] at hall
    simp only [List.all_cons, Bool.and_eq_true] at hall
    have hrem : remUnderscores (c :: cs) = some (c :: cs) :=
      remUnderscores_all_digit (by simp [hall.1, hall.2])
    simp only [parseUDigits, hall.1, if_true, hrem, Option.map_some]
    rw [← hl]
    simp [digitsToNat_natToDigits n]

theorem not_isPyWs_of_isDigit {c : Char} (h : c.isDigit = true) : isPyWs c = false := by
  by_contra hne
  have hw : isPyWs c = true := by
    cases hq : isPyWs c
    · exact absurd hq hne
    · rfl
  unfold isPyWs at hw
  simp only [Bool.or_eq_true, decide_eq_true_eq] at hw
  rcases hw with ((((h1 | h1) | h1) | h1) | h1) | h1 <;> (subst h1; exact absurd h (by decide))

theorem dropLeadWs_of_all {l : List Char} (h : l.all (fun c => !isPyWs c) = true) :
    dropLeadWs l = l := by
  cases l with
  | nil => rfl
  | cons c cs =>
    simp only [List.all_cons, Bool.and_eq_true, Bool.not_eq_true'] at h
    unfold dropLeadWs
    rw [h.1]
    simp

theorem dropWs_of_all {l : List Char} (h : l.all (fun c => !isPyWs c) = true) :
    dropWs l = l := by
  unfold dropWs
  rw [dropLeadWs_of_all h]
  rw [dropLeadWs_of_all (by rwa [List.all_reverse])]
  exact List.reverse_reverse l

theorem all_not_ws_of_all_digit {l : List Char} (h : l.all Char.isDigit = true) :
    l.all (fun c => !isPyWs c) = true := by
  rw [List.all_eq_true] at h ⊢
  intro c hc
  rw [Bool.not_eq_true', not_isPyWs_of_isDigit (h c hc)]

theorem pyIntOfString_pyIntStr (n : Int) : pyIntOfString (pyIntStr n) = some n := by
  have hne := natToDigits_ne_nil n.natAbs
  have hall := natToDigits_all_digit n.natAbs
  unfold pyIntOfString pyIntStr
  split
  · next hneg =>
    have htl : (String.mk ('-' :: natToDigits n.natAbs)).toList =
        '-' :: natToDigits n.natAbs := rfl
    rw [htl, dropWs_of_all]
    · simp [pyIntOfChars, parseUDigits_natToDigits n.natAbs]
      rw [abs_of_neg hneg]
      exact neg_neg n
    · simp only [List.all_cons, Bool.and_eq_true]
      exact ⟨by decide, all_not_ws_of_all_digit hall⟩
  · next hneg =>
    have htl : (String.mk (natToDigits n.natAbs)).toList = natToDigits n.natAbs := rfl
    rw [htl, dropWs_of_all (all_not_ws_of_all_digit hall)]
    cases hl : natToDigits n.natAbs with
    | nil => exact absurd hl hne
    | cons c cs =>
      rw [hl] at hall
      simp only [List.all_cons, Bool.and_eq_true] at hall
      have hc1 : ¬ c = '-' := by
        intro he; rw [he] at hall; exact absurd hall.1 (by decide)
      have hc2 : ¬ c = '+' := by
        intro he; rw [he] at hall; exact absurd hall.1 (by decide)
      have hp : parseUDigits (c :: cs) = some n.natAbs := by
        rw [← hl]; exact parseUDigits_natToDigits n.natAbs
      simp [pyIntOfChars, hc1, hc2, hp]
      omega

/-- Read-back of a written value: coercing `str(v)` with the declared type recovers `v`
for every non-`bool-False`, non-empty-string value of the declared type. -/
theorem coerce_pyStr_roundtrip {t : CType} {v : PyVal} (ht : pyTypeIs v t = true)
    (hne : pyStr v ≠ "") (hb : v ≠ .bool false) :
    coerceVal t (pyStr v) = .ok v := by
  cases v with
  | none => cases t <;> simp [pyTypeIs] at ht
  | str s =>
    cases t <;> try simp [pyTypeIs] at ht
    rfl
  | int n =>
    cases t <;> try simp [pyTypeIs] at ht
    simp [coerceVal, pyStr, pyIntOfString_pyIntStr n]
  | bool b =>
    cases t <;> try simp [pyTypeIs] at ht
    cases b
    · exact absurd rfl hb
    · rfl

/-! ### Configuration resolver: claim theorems -/

theorem storeFirst_storeUpdate (st : Store) (k : String) (v : String)
    (h : (storeFirst st k).isSome = true) :
    storeFirst (storeUpdate st k v) k = some (some v) := by
  induction st with
  | nil => simp [storeFirst] at h
  | cons r st ih =>
    by_cases hk : r.1 = k
    · simp [storeFirst, storeUpdate, List.find?, hk]
    · have h' : (storeFirst st k).isSome = true := by
        simpa [storeFirst, List.find?, hk] using h
      simpa [storeFirst, storeUpdate, List.find?, hk] using ih h'

/-- No usable stored override for the key: no row, a NULL value, or the empty string
(exactly the states in which `query.exists() and query.first().value` is falsy). -/
def overrideFalsy (st : Store) (k : String) : Bool :=
  match storeFirst st k with
  | some (some s) => s = ""
  | _ => true

/-- Claim C2: for a registered key, `__getattr__` resolves by precedence: a non-empty
stored override is returned coerced with the declared type's constructor; failing that, a
set `PAPERLESS_`-prefixed environment variable is returned as a raw string (even for
non-string declared types); failing that, the registry default, or `None` when the entry
has no default. -/
theorem config_get_precedence (st : Store) (env : Env) (k : String) (entry : CfgEntry)
    (hk : cfgLookup k = some entry) :
    (∀ s, storeFirst st k = some (some s) → s ≠ "" →
        getattrConfig st env k = coerceVal entry.type s)
    ∧ (overrideFalsy st k = true → ∀ e, envFind env ("PAPERLESS_" ++ k) = some e →
        getattrConfig st env k = .ok (.str e))
    ∧ (overrideFalsy st k = true → envFind env ("PAPERLESS_" ++ k) = Option.none →
        getattrConfig st env k = .ok (match entry.default with
          | some d => d
          | Option.none => .none)) := by
  refine ⟨?_, ?_, ?_⟩
  · intro s hs hne
    simp [getattrConfig, hk, hs, hne]
  · intro hov e he
    unfold overrideFalsy at hov
    cases hsf : storeFirst st k with
    | none => simp [getattrConfig, hk, hsf, get_default, he]
    | some w =>
      cases w with
      | none => simp [getattrConfig, hk, hsf, get_default, he]
      | some s =>
        rw [hsf] at hov
        simp only [decide_eq_true_eq] at hov
        subst hov
        simp [getattrConfig, hk, hsf, get_default, he]
  · intro hov he
    unfold overrideFalsy at hov
    cases hsf : storeFirst st k with
    | none => simp [getattrConfig, hk, hsf, get_default, he]
    | some w =>
      cases w with
      | none => simp [getattrConfig, hk, hsf, get_default, he]
      | some s =>
        rw [hsf] at hov
        simp only [decide_eq_true_eq] at hov
        subst hov
        simp [getattrConfig, hk, hsf, get_default, he]

/-- Witness for C2: a stored override `"5"` for `OCR_PAGES` is read back as `int("5")`. -/
theorem config_get_precedence_witness :
    getattrConfig [("OCR_PAGES", some "5")] [] "OCR_PAGES" = .ok (.int 5) := by
  have h := (config_get_precedence [("OCR_PAGES", some "5")] [] "OCR_PAGES"
      ⟨.int, some (.int 0)⟩ (by decide)).1 "5" (by decide) (by decide)
  rw [h]
  rfl

/-- Claim C4: `set_config` raises `KeyError` (the spec's `UnknownKeyError`) for a key not
in the registry and `TypeError` (the spec's `TypeMismatchError`) when the value's runtime
type is not exactly the declared type; in both cases the rejection happens before the
write and the store is unchanged. -/
theorem set_config_errors (st : Store) (k : String) (v : PyVal) :
    (cfgLookup k = Option.none →
      set_config st k v = .error .keyError ∧ applySet st k v = st)
    ∧ (∀ entry, cfgLookup k = some entry → pyTypeIs v entry.type = false →
      set_config st k v = .error .typeError ∧ applySet st k v = st) := by
  constructor
  · intro hk
    have h1 : set_config st k v = .error .keyError := by simp [set_config, hk]
    exact ⟨h1, by simp [applySet, h1]⟩
  · intro entry hk ht
    have h1 : set_config st k v = .error .typeError := by simp [set_config, hk, ht]
    exact ⟨h1, by simp [applySet, h1]⟩

/-- Witness for C4: `set("UNKNOWN_KEY", "x")` raises `KeyError` and
`set("OCR_PAGES", "three")` (declared type `int`) raises `TypeError`. -/
theorem set_config_errors_witness :
    set_config [("OCR_PAGES", some "1")] "UNKNOWN_KEY" (.str "x") = .error .keyError
    ∧ set_config [("OCR_PAGES", some "1")] "OCR_PAGES" (.str "three")
        = .error .typeError := by
  constructor
  · exact ((set_config_errors [("OCR_PAGES", some "1")] "UNKNOWN_KEY" (.str "x")).1
      (by decide)).1
  · exact ((set_config_errors [("OCR_PAGES", some "1")] "OCR_PAGES" (.str "three")).2
      ⟨.int, some (.int 0)⟩ (by decide) (by decide)).1

/-- Claim C6 counterexample: `get` of an unregistered key raises `AttributeError` at a
concrete input instead of silently treating the key as having no stored value. -/
theorem config_get_unknown_counterexample :
    getattrConfig [] [] "UNKNOWN_KEY" = .error .attributeError := rfl

/-- Claim C6 amended: for every key absent from the registry, `__getattr__` raises
`AttributeError` — `get` is strict about unknown keys just as `set` is, merely with a
different exception type (`AttributeError` vs `KeyError`). -/
theorem config_get_unknown_raises (st : Store) (env : Env) (k : String)
    (hk : cfgLookup k = Option.none) :
    getattrConfig st env k = .error .attributeError := by
  simp [getattrConfig, hk]

/-- Witness for the amended C6. -/
theorem config_get_unknown_raises_witness :
    getattrConfig [("OCR_PAGES", some "3")] [("PAPERLESS_UNREGISTERED", "x")] "UNREGISTERED"
      = .error .attributeError :=
  config_get_unknown_raises _ _ _ (by decide)

/-- Claim C9: for a key declared `bool`, an existing stored row with a truthy (non-NULL,
non-empty) value always reads back as `True`, since `bool(...)` of a non-empty string is
`True`; a persisted override can therefore never make a boolean setting resolve to
`False`. -/
theorem config_bool_override_always_true (st : Store) (env : Env) (k : String)
    (entry : CfgEntry) (s : String) (hk : cfgLookup k = some entry)
    (ht : entry.type = .bool) (hs : storeFirst st k = some (some s)) (hne : s ≠ "") :
    getattrConfig st env k = .ok (.bool true) := by
  simp [getattrConfig, hk, hs, hne, coerceVal, ht]

/-- Witness for C9: a stored `"False"` for `OCR_DESKEW` resolves to `True`. -/
theorem config_bool_override_always_true_witness :
    getattrConfig [("OCR_DESKEW", some "False")] [] "OCR_DESKEW" = .ok (.bool true) :=
  config_bool_override_always_true _ [] _ ⟨.bool, some (.bool true)⟩ "False"
    (by decide) rfl (by decide) (by decide)

/-- Claim C3 counterexample: with a stored row present and no environment override,
`set_config("OCR_DESKEW", False)` succeeds and stores `str(False) = "False"`, but the
immediately following `get` returns `True` (a non-empty stored string coerces with
`bool(...)` to `True`), not the written value `False`. -/
theorem set_get_roundtrip_counterexample :
    set_config [("OCR_DESKEW", some "True")] "OCR_DESKEW" (.bool false)
        = .ok [("OCR_DESKEW", some "False")]
    ∧ getattrConfig [("OCR_DESKEW", some "False")] [] "OCR_DESKEW" = .ok (.bool true)
    ∧ PyVal.bool true ≠ PyVal.bool false :=
  ⟨rfl, rfl, by decide⟩

/-- Claim C3 amended: after a successful `set_config(k, v)` with no environment override,
an immediately following `get(k)` returns `v` unchanged provided a stored row for `k`
already existed (`set` updates rows but never creates them), `str(v)` is non-empty, and
`v` is not the boolean `False` (any non-empty stored string — including `"False"` — reads
back as `True`, and an empty stored string falls through to the default). -/
theorem set_then_get_returns_value (st : Store) (env : Env) (k : String) (entry : CfgEntry)
    (v : PyVal) (hk : cfgLookup k = some entry) (ht : pyTypeIs v entry.type = true)
    (hrow : (storeFirst st k).isSome = true)
    (_henv : envFind env ("PAPERLESS_" ++ k) = Option.none)
    (hne : pyStr v ≠ "") (hb : v ≠ .bool false) :
    ∃ st', set_config st k v = .ok st' ∧ getattrConfig st' env k = .ok v := by
  refine ⟨storeUpdate st k (pyStr v), ?_, ?_⟩
  · simp [set_config, hk, ht]
  · have hsf := storeFirst_storeUpdate st k (pyStr v) hrow
    simp [getattrConfig, hk, hsf, hne, coerce_pyStr_roundtrip ht hne hb]

/-- Witness for the amended C3. -/
theorem set_then_get_returns_value_witness :
    ∃ st', set_config [("DATE_ORDER", some "DMY")] "DATE_ORDER" (.str "MDY") = .ok st'
      ∧ getattrConfig st' [] "DATE_ORDER" = .ok (.str "MDY") :=
  set_then_get_returns_value _ _ _ ⟨.str, some (.str "DMY")⟩ _ (by decide) (by decide)
    (by decide) (by decide) (by decide) (by decide)

/-! ### Filename extraction: claim theorems -/

/-- The list contains no `'\n'` except possibly as its final element. -/
def nlOk (cs : List Char) : Bool :=
  cs.dropLast.all (fun c => c ≠ '\n')

/-- The string contains no newline except possibly as its final character.  Python's `$`
anchor (without `MULTILINE`) makes this the exact condition under which the fallback
pattern `(?P<title>.*)$` matches. -/
def noInteriorNewline (s : String) : Bool :=
  nlOk s.toList

theorem nlOk_cons_cons (c d : Char) (t : List Char) :
    nlOk (c :: d :: t) = ((c ≠ '\n') && nlOk (d :: t)) := by
  simp [nlOk, List.dropLast]

theorem nlOk_take (j : Nat) (cs : List Char) (h : nlOk cs = true) :
    nlOk (cs.take j) = true := by
  induction cs generalizing j with
  | nil => simp [List.take_nil]; rfl
  | cons c cs ih =>
    cases j with
    | zero => rfl
    | succ k =>
      rw [List.take_succ_cons]
      cases cs with
      | nil => simp [List.take_nil]; rfl
      | cons d t =>
        rw [nlOk_cons_cons] at h
        simp only [Bool.and_eq_true] at h
        cases htk : (d :: t).take k with
        | nil => rfl
        | cons x xs =>
          rw [nlOk_cons_cons, Bool.and_eq_true, ← htk]
          exact ⟨h.1, ih k h.2⟩

theorem idxOfFrom_le (cs : List Char) (ch : Char) : idxOfFrom cs ch ≤ cs.length := by
  induction cs with
  | nil => simp [idxOfFrom]
  | cons c cs ih =>
    simp only [idxOfFrom, List.length_cons]
    split
    · omega
    · omega

theorem idxOfFrom_cons (c : Char) (cs : List Char) (t : Char) :
    idxOfFrom (c :: cs) t = if c = t then 0 else idxOfFrom cs t + 1 := rfl

theorem nlOk_idxOfFrom (cs : List Char) (h : nlOk cs = true) :
    cs.length - 1 ≤ idxOfFrom cs '\n' := by
  induction cs with
  | nil => simp [idxOfFrom]
  | cons c cs ih =>
    cases cs with
    | nil => simp
    | cons d t =>
      rw [nlOk_cons_cons] at h
      simp only [Bool.and_eq_true, decide_eq_true_eq] at h
      have h1 := ih h.2
      rw [idxOfFrom_cons, if_neg h.1]
      simp only [List.length_cons] at h1 ⊢
      omega

theorem matchDotStarDollar_isSome {cs : List Char} (h : nlOk cs = true) :
    (matchDotStarDollar cs).isSome = true := by
  have h1 := idxOfFrom_le cs '\n'
  have h2 := nlOk_idxOfFrom cs h
  unfold matchDotStarDollar
  by_cases he : idxOfFrom cs '\n' = cs.length
  · simp [he]
  · have he2 : idxOfFrom cs '\n' = cs.length - 1 := by omega
    have hlen : 1 ≤ cs.length := by
      by_contra hl
      have : cs.length = 0 := by omega
      omega
    have hne : ¬ (cs.length - 1 = cs.length) := by omega
    simp [he2, hne]

theorem splitext_root_take (p : String) :
    ∃ k, ((splitext p).1).toList = p.toList.take k := by
  simp only [splitext]
  split
  · split
    · exact ⟨p.toList.length, (List.take_length _).symm⟩
    · exact ⟨_, rfl⟩
  · exact ⟨p.toList.length, (List.take_length _).symm⟩

theorem nlOk_processedName (f : String) (h : nlOk f.toList = true) :
    nlOk (processedName f).toList = true := by
  by_cases hc : (decide ((splitext f).1 = f) && startsWithDot f) = true
  · rw [show processedName f = "" by simp [processedName, hc]]
    rfl
  · rw [show processedName f = (splitext f).1 by simp [processedName, hc]]
    obtain ⟨k, hk⟩ := splitext_root_take f
    rw [hk]
    exact nlOk_take k f.toList h

/-- Claim C1 counterexample: for the input `"a\nb"` — a filename with an interior
newline — neither pattern matches (the `$`-anchored `.*` of both regexes cannot cross the
newline), the matching loop falls through, and `from_filename` returns `None` rather than
a `FileInfo`. -/
theorem extraction_none_on_interior_newline :
    FileInfo.from_filename [] "a\nb" = Option.none := rfl

/-- Claim C1 amended: extraction always terminates, and for every input whose text
contains no newline other than possibly a final one (every realistic filename), it
returns a non-null `FileInfo`: the fallback pattern matches any such string.  Inputs with
an interior newline make both patterns fail and `from_filename` returns `None`. -/
theorem extraction_total_without_interior_newline (f : String)
    (h : noInteriorNewline f = true) :
    (FileInfo.from_filename [] f).isSome = true := by
  have h2 : nlOk (processedName f).toList = true := nlOk_processedName f h
  have h3 := matchDotStarDollar_isSome h2
  simp only [FileInfo.from_filename, applyTransforms]
  cases hm : matchCreatedTitle (processedName f) with
  | some p =>
    obtain ⟨c, t⟩ := p
    simp
  | none =>
    cases ht : matchTitleOnly (processedName f) with
    | some t => simp [ht]
    | none =>
      exfalso
      unfold matchTitleOnly at ht
      rw [Option.map_eq_none'] at ht
      rw [ht] at h3
      simp at h3

/-- Witness for the amended C1. -/
theorem extraction_total_witness :
    (FileInfo.from_filename [] "plain-name.pdf").isSome = true :=
  extraction_total_without_interior_newline "plain-name.pdf" (by decide)

/-- Claim C5 counterexample: the date-only input does not produce the 12:00:00 timestamp
the claim asserts — right-padding `"20230405"` with zeros yields time-of-day 00:00:00. -/
theorem date_only_padding_counterexample :
    (FileInfo.from_filename [] "20230405Z - Invoice.pdf").bind FileInfo.created
      ≠ some ⟨2023, 4, 5, 12, 0, 0⟩ := by
  intro h
  have h2 : (some (⟨2023, 4, 5, 0, 0, 0⟩ : PyDatetime) : Option PyDatetime)
      = some ⟨2023, 4, 5, 12, 0, 0⟩ := by
    rw [← h]; rfl
  simp at h2

/-- Claim C5 amended: `extract("20230405Z - Invoice.pdf")` pads the 8-digit run on the
right with zeros to 14 digits, so its `created` is 2023-04-05T00:00:00Z (midnight, not
12:00:00) with `title = "Invoice"`, while `extract("20230405120000Z - Invoice.pdf")` has
`created` = 2023-04-05T12:00:00Z: the two timestamps differ in the time of day. -/
theorem date_only_padding_zero_time :
    FileInfo.from_filename [] "20230405Z - Invoice.pdf"
      = some { created := some ⟨2023, 4, 5, 0, 0, 0⟩, title := some "Invoice" }
    ∧ FileInfo.from_filename [] "20230405120000Z - Invoice.pdf"
      = some { created := some ⟨2023, 4, 5, 12, 0, 0⟩, title := some "Invoice" } :=
  ⟨rfl, rfl⟩

/-- Claim C7: whenever the processed (extension-stripped) filename matches the
date-prefixed pattern but the captured digit run fails timestamp parsing, extraction
still succeeds: `created` degrades to `None` and `title` is populated from the title
capture; no exception propagates. -/
theorem malformed_date_yields_null_created (f c t : String)
    (h1 : matchCreatedTitle (processedName f) = some (c, t))
    (h2 : FileInfo.get_created c = Option.none) :
    FileInfo.from_filename [] f = some { created := Option.none, title := some t } := by
  simp only [FileInfo.from_filename, applyTransforms, h1, h2]

/-- Witness for C7: month 13 / malformed digits give `created = None`, `title`
preserved. -/
theorem malformed_date_yields_null_created_witness :
    FileInfo.from_filename [] "20231341000000Z - garbage.pdf"
      = some { created := Option.none, title := some "garbage" } :=
  malformed_date_yields_null_created "20231341000000Z - garbage.pdf" "20231341000000Z"
    "garbage" rfl rfl

/-- Claim C8: a file named literally `.pdf` is treated as having no usable text
(extension stripping leaves it unchanged and it starts with a dot, so the name is
replaced by the empty string), and extraction returns an empty title with no creation
date. -/
theorem dot_pdf_empty_title :
    FileInfo.from_filename [] ".pdf"
      = some { created := Option.none, title := some "" } := rfl

/-! ### `paperless_tesseract.setting_schema.get_ocr_settings` -/

/-- The fields of the `OcrSettingModel` database row that `get_ocr_settings` reads (the
model class itself lives outside this file set; the field names and their optionality are
those used by `setting_schema.py`).  Nullable columns are `Option`; float-valued columns
are modelled as exact rationals, which is faithful here because the code only passes the
values through and truth-tests them against zero. -/
structure OcrSettingsRow where
  pages : Option Int
  language : Option String
  output_type : Option String
  mode : Option String
  skip_archive_file : Option String
  image_dpi : Option Int
  unpaper_clean : Option String
  deskew : Option Bool
  rotate_pages : Option Bool
  rotate_pages_threshold : Option Rat
  max_image_pixels : Option Rat
  color_conversion_strategy : Option String
  user_args : Option (List (String × String))
deriving DecidableEq, Repr

/-- The `django.conf.settings` globals that `get_ocr_settings` consults. -/
structure TesseractGlobals where
  OCR_PAGES : Option Int
  OCR_LANGUAGE : Option String
  OCR_OUTPUT_TYPE : Option String
  OCR_MODE : Option String
  OCR_SKIP_ARCHIVE_FILE : Option String
  OCR_IMAGE_DPI : Option Int
  OCR_CLEAN : Option String
  OCR_DESKEW : Option Bool
  OCR_ROTATE_PAGES : Option Bool
  OCR_ROTATE_PAGES_THRESHOLD : Option Rat
  OCR_MAX_IMAGE_PIXELS : Option Rat
  OCR_COLOR_CONVERSION_STRATEGY : Option String
  OCR_USER_ARGS : Option String
deriving DecidableEq, Repr

/-- The frozen `OcrSetting` dataclass assembled by `get_ocr_settings`. -/
structure OcrSetting where
  pages : Option Int
  language : Option String
  output_type : Option String
  mode : Option String
  skip_archive_file : Option String
  image_dpi : Option Int
  clean : Option String
  deskew : Option Bool
  rotate : Option Bool
  rotate_threshold : Option Rat
  max_image_pixel : Option Rat
  color_conversion_strategy : Option String
  user_args : Option (List (String × String))
deriving DecidableEq, Repr

/-- Python truthiness of an optional int (`None` and `0` are falsy). -/
def truthyOptInt : Option Int → Bool
  | some n => n ≠ 0
  | _ => false

/-- Python truthiness of an optional string (`None` and `""` are falsy). -/
def truthyOptStr : Option String → Bool
  | some s => s ≠ ""
  | _ => false

/-- Python truthiness of an optional bool (`None` and `False` are falsy). -/
def truthyOptBool : Option Bool → Bool
  | some b => b
  | _ => false

/-- Python truthiness of an optional float (`None` and `0.0` are falsy). -/
def truthyOptRat : Option Rat → Bool
  | some q => q ≠ 0
  | _ => false

/-- Python truthiness of an optional dict (`None` and `{}` are falsy). -/
def truthyOptDict : Option (List (String × String)) → Bool
  | some l => l ≠ []
  | _ => false

/-- Python `a or b` for a truthiness function on the value type. -/
def pyOr {α : Type} (truthy : α → Bool) (a b : α) : α :=
  if truthy a then a else b

/-- `get_ocr_settings()`: each field except `user_args` is `db_value or global`;
`user_args` uses an explicit `if db.user_args: ... elif settings.OCR_USER_ARGS is not
None: json.loads(...)` chain (the JSON decoder is abstracted as a function argument; the
claims do not touch it). -/
def get_ocr_settings (db : OcrSettingsRow) (g : TesseractGlobals)
    (jsonLoads : String → List (String × String)) : OcrSetting :=
  let user_args : Option (List (String × String)) :=
    if truthyOptDict db.user_args then db.user_args
    else
      match g.OCR_USER_ARGS with
      | some s => some (jsonLoads s)
      | Option.none => Option.none
  { pages := pyOr truthyOptInt db.pages g.OCR_PAGES,
    language := pyOr truthyOptStr db.language g.OCR_LANGUAGE,
    output_type := pyOr truthyOptStr db.output_type g.OCR_OUTPUT_TYPE,
    mode := pyOr truthyOptStr db.mode g.OCR_MODE,
    skip_archive_file := pyOr truthyOptStr db.skip_archive_file g.OCR_SKIP_ARCHIVE_FILE,
    image_dpi := pyOr truthyOptInt db.image_dpi g.OCR_IMAGE_DPI,
    clean := pyOr truthyOptStr db.unpaper_clean g.OCR_CLEAN,
    deskew := pyOr truthyOptBool db.deskew g.OCR_DESKEW,
    rotate := pyOr truthyOptBool db.rotate_pages g.OCR_ROTATE_PAGES,
    rotate_threshold :=
      pyOr truthyOptRat db.rotate_pages_threshold g.OCR_ROTATE_PAGES_THRESHOLD,
    max_image_pixel := pyOr truthyOptRat db.max_image_pixels g.OCR_MAX_IMAGE_PIXELS,
    color_conversion_strategy :=
      pyOr truthyOptStr db.color_conversion_strategy g.OCR_COLOR_CONVERSION_STRATEGY,
    user_args := user_args }

/-- Claim C10: in `get_ocr_settings`, every field of the returned `OcrSetting` except
`user_args` falls back to the global setting whenever the database value is falsy
(`False`, `0`, the empty string, or NULL), so an explicitly stored `False`/`0` in the
database can never override a truthy global default. -/
theorem get_ocr_settings_falsy_fallback (db : OcrSettingsRow) (g : TesseractGlobals)
    (jl : String → List (String × String)) :
    (truthyOptInt db.pages = false → (get_ocr_settings db g jl).pages = g.OCR_PAGES)
    ∧ (truthyOptStr db.language = false →
        (get_ocr_settings db g jl).language = g.OCR_LANGUAGE)
    ∧ (truthyOptStr db.output_type = false →
        (get_ocr_settings db g jl).output_type = g.OCR_OUTPUT_TYPE)
    ∧ (truthyOptStr db.mode = false → (get_ocr_settings db g jl).mode = g.OCR_MODE)
    ∧ (truthyOptStr db.skip_archive_file = false →
        (get_ocr_settings db g jl).skip_archive_file = g.OCR_SKIP_ARCHIVE_FILE)
    ∧ (truthyOptInt db.image_dpi = false →
        (get_ocr_settings db g jl).image_dpi = g.OCR_IMAGE_DPI)
    ∧ (truthyOptStr db.unpaper_clean = false →
        (get_ocr_settings db g jl).clean = g.OCR_CLEAN)
    ∧ (truthyOptBool db.deskew = false →
        (get_ocr_settings db g jl).deskew = g.OCR_DESKEW)
    ∧ (truthyOptBool db.rotate_pages = false →
        (get_ocr_settings db g jl).rotate = g.OCR_ROTATE_PAGES)
    ∧ (truthyOptRat db.rotate_pages_threshold = false →
        (get_ocr_settings db g jl).rotate_threshold = g.OCR_ROTATE_PAGES_THRESHOLD)
    ∧ (truthyOptRat db.max_image_pixels = false →
        (get_ocr_settings db g jl).max_image_pixel = g.OCR_MAX_IMAGE_PIXELS)
    ∧ (truthyOptStr db.color_conversion_strategy = false →
        (get_ocr_settings db g jl).color_conversion_strategy
          = g.OCR_COLOR_CONVERSION_STRATEGY) := by
  refine ⟨?_, ?_, ?_, ?_, ?_, ?_, ?_, ?_, ?_, ?_, ?_, ?_⟩ <;>
    (intro h; simp [get_ocr_settings, pyOr, h])

/-- Witness for C10: a row that explicitly stores `deskew = False` and `pages = 0` still
resolves to the truthy globals. -/
theorem get_ocr_settings_falsy_fallback_witness :
    (get_ocr_settings
        ⟨some 0, some "", some "", some "", some "", Option.none, some "", some false,
          some false, some 0, Option.none, some "", Option.none⟩
        ⟨some 2, some "eng", some "pdfa", some "skip", some "never", some 300,
          some "clean", some true, some true, some 12, some 5, some "RGB",
          Option.none⟩
        (fun _ => [])).deskew = some true
    ∧ (get_ocr_settings
        ⟨some 0, some "", some "", some "", some "", Option.none, some "", some false,
          some false, some 0, Option.none, some "", Option.none⟩
        ⟨some 2, some "eng", some "pdfa", some "skip", some "never", some 300,
          some "clean", some true, some true, some 12, some 5, some "RGB",
          Option.none⟩
        (fun _ => [])).pages = some 2 := by
  constructor
  · exact (get_ocr_settings_falsy_fallback _ _ _).2.2.2.2.2.2.2.1 (by decide)
  · exact (get_ocr_settings_falsy_fallback _ _ _).1 (by decide)
